import Mathlib

/-!
Verification of the Jobbot-NO application-submission orchestrator
(`worker/auto_apply.py`, `worker/register_site.py`, `worker/finn_apply_worker.py`).

Each definition below is a shallow embedding of one function (or one decision
step of a function) of the Python source.  Database tables are modelled as
lists of typed rows, wall-clock instants as integers (seconds), randomness and
external I/O outcomes as explicit oracle parameters.  Python strings stay
`String`; Python `x in s` becomes `strContains s x`.
-/

namespace JobbotNO

/-- Membership of `pat` as a contiguous sublist, mirroring the Python
substring test `pat in s`. -/
def listContainsSub (pat : List Char) : List Char → Bool
  | [] => pat.isEmpty
  | c :: rest => pat.isPrefixOf (c :: rest) || listContainsSub pat rest

/-- Python `pat in s` on strings. -/
def strContains (s pat : String) : Bool :=
  listContainsSub pat.toList s.toList

/-- A single-quote character, used inside source string literals. -/
def singleQuote : String := String.singleton (Char.ofNat 39)

/-- Python `s.lower()` for the ASCII strings compared here, kept executable
character by character. -/
def str_lower (s : String) : String := String.mk (s.toList.map Char.toLower)

/-- The result taxonomy returned by `monitor_task_status`
(`auto_apply.py:3096`): one of the string literals
`sent`, `failed`, `manual_review`, `magic_link`, `cancelled`. -/
inductive MonitorResult where
  | sent
  | failed
  | manual_review
  | magic_link
  | cancelled
deriving DecidableEq, Repr

/-- Constant `skyvern_internal_codes` from `auto_apply.py:3202`. -/
def skyvern_internal_codes : List String := ["REACH_MAX_STEPS", "REACH_MAX_RETRIES"]

/-- The literal tested at `auto_apply.py:3249`: "doesn", a single quote, then "t support text input". -/
def doesnt_support_text_input : String :=
  "doesn" ++ singleQuote ++ "t support text input"

/-- The free-text magic-link heuristic of `auto_apply.py:3332-3339`:
`reason_lower` is the lower-cased failure reason. -/
def is_magic_link_reason (reason_lower : String) : Bool :=
  (strContains reason_lower "check email" && strContains reason_lower "link") ||
  (strContains reason_lower "email" && strContains reason_lower "login link") ||
  (strContains reason_lower "post-login" && strContains reason_lower "email") ||
  strContains reason_lower "magic link" ||
  strContains reason_lower "email link" ||
  (strContains reason_lower "email" &&
    (strContains reason_lower "link" || strContains reason_lower "verification"))

/-- The string-matching fallback of `auto_apply.py:3330-3364`, reached when no
structured error code decided the failure. -/
def reason_fallback (reason : String) : MonitorResult :=
  let reason_lower := str_lower reason
  if is_magic_link_reason reason_lower then .magic_link
  else if strContains reason_lower "manual" then .manual_review
  else .failed

/-- Classification of a `failed`/`terminated` Skyvern task from its structured
error codes and free-text failure reason, `auto_apply.py:3193-3364`.
The `REACH_MAX_RETRIES` branch keeps the three source sub-cases (rich-text
span, file upload, other), which differ only in the Telegram text sent. -/
def classify_failure (error_codes0 : List String) (reason : String) : MonitorResult :=
  let error_codes :=
    if error_codes0.contains "REACH_MAX_STEPS" then
      error_codes0.filter (fun c => skyvern_internal_codes.contains c)
    else error_codes0
  if error_codes.contains "magic_link" then .magic_link
  else if error_codes.contains "position_closed" then .failed
  else if error_codes.contains "registration_required" then .manual_review
  else if error_codes.contains "file_upload_required" then .manual_review
  else if error_codes.contains "captcha_blocked" then .manual_review
  else if error_codes.contains "login_failed" then .failed
  else if error_codes.contains "2fa_timeout" then .failed
  else if error_codes.contains "REACH_MAX_RETRIES" then
    (if strContains reason "<span" && strContains reason doesnt_support_text_input then
      .manual_review
    else if strContains reason "upload_file" || strContains reason "file chooser" ||
        strContains (str_lower reason) "file upload" then
      .manual_review
    else .manual_review)
  else if error_codes.contains "REACH_MAX_STEPS" then .manual_review
  else reason_fallback reason

/-- The `extracted_information` fields that `monitor_task_status` inspects:
`magic_link_sent` (truthiness, `auto_apply.py:3143`) and
`application_submitted` (tri-state: absent, or an explicit boolean,
`auto_apply.py:3175`). -/
structure ExtractedInfo where
  magic_link_sent : Bool
  application_submitted : Option Bool
deriving DecidableEq, Repr

/-- One Skyvern poll response as read by `monitor_task_status`
(`auto_apply.py:3137-3194`): status string, extracted information, the list of
structured `error_code` values, and the free-text `failure_reason`. -/
structure TaskPoll where
  status : String
  extracted_information : ExtractedInfo
  errors : List String
  failure_reason : String
deriving DecidableEq, Repr

/-- Classification of one poll response by `monitor_task_status`
(`auto_apply.py:3139-3364`): `none` means the loop keeps polling. -/
def classify_poll (d : TaskPoll) : Option MonitorResult :=
  if d.extracted_information.magic_link_sent then some .magic_link
  else if d.status = "completed" then
    (if d.extracted_information.application_submitted = some false then some .manual_review
     else some .sent)
  else if d.status = "failed" || d.status = "terminated" then
    some (classify_failure d.errors d.failure_reason)
  else none

/-- The known-code result table as the spec states it: `magic_link`,
`position_closed`, `registration_required`, `file_upload_required`,
`captcha_blocked`, `login_failed`, `2fa_timeout`. -/
def known_code_result (c : String) : Option MonitorResult :=
  if c = "magic_link" then some .magic_link
  else if c = "position_closed" then some .failed
  else if c = "registration_required" then some .manual_review
  else if c = "file_upload_required" then some .manual_review
  else if c = "captcha_blocked" then some .manual_review
  else if c = "login_failed" then some .failed
  else if c = "2fa_timeout" then some .failed
  else none

lemma contains_filter_internal_false (codes : List String) (x : String)
    (hx : skyvern_internal_codes.contains x = false) :
    (codes.filter (fun c => skyvern_internal_codes.contains c)).contains x = false := by
  cases hcx : (codes.filter (fun c => skyvern_internal_codes.contains c)).contains x with
  | false => rfl
  | true =>
    exfalso
    have hmem := List.mem_filter.mp (List.elem_iff.mp hcx)
    rw [hmem.2] at hx
    exact absurd hx (by decide)

lemma contains_filter_internal_true (codes : List String) (x : String)
    (hc : codes.contains x = true) (hx : skyvern_internal_codes.contains x = true) :
    (codes.filter (fun c => skyvern_internal_codes.contains c)).contains x = true :=
  List.elem_iff.mpr (List.mem_filter.mpr ⟨List.elem_iff.mp hc, hx⟩)

/-- C1: error-code precedence of `monitor_task_status` on `failed`/`terminated`
tasks.  (1) A `REACH_MAX_STEPS` code always yields `manual_review`, discarding
any custom taxonomy codes.  (2) Without it, a known code maps as the taxonomy
table states.  (3) With no matching code at all, the free-text keyword search
decides, and (4) it defaults to `failed` when no keyword matches. -/
theorem monitor_error_code_precedence :
    (∀ (codes : List String) (reason : String),
        codes.contains "REACH_MAX_STEPS" = true →
        classify_failure codes reason = .manual_review) ∧
    (∀ (c : String) (r : MonitorResult) (reason : String),
        known_code_result c = some r →
        classify_failure [c] reason = r) ∧
    (∀ (codes : List String) (reason : String),
        (∀ c ∈ codes, known_code_result c = none) →
        codes.contains "REACH_MAX_STEPS" = false →
        codes.contains "REACH_MAX_RETRIES" = false →
        classify_failure codes reason = reason_fallback reason) ∧
    (∀ reason : String,
        is_magic_link_reason (str_lower reason) = false →
        strContains (str_lower reason) "manual" = false →
        reason_fallback reason = .failed) := by
  refine ⟨?_, ?_, ?_, ?_⟩
  · intro codes reason h
    have hneg : ∀ x : String, skyvern_internal_codes.contains x = false →
        ¬((codes.filter (fun c => skyvern_internal_codes.contains c)).contains x = true) := by
      intro x hx
      rw [contains_filter_internal_false codes x hx]
      exact fun hc => absurd hc (by decide)
    have hst := contains_filter_internal_true codes "REACH_MAX_STEPS" h (by decide)
    simp only [classify_failure]
    rw [if_pos h, if_neg (hneg "magic_link" (by decide)),
      if_neg (hneg "position_closed" (by decide)),
      if_neg (hneg "registration_required" (by decide)),
      if_neg (hneg "file_upload_required" (by decide)),
      if_neg (hneg "captcha_blocked" (by decide)),
      if_neg (hneg "login_failed" (by decide)),
      if_neg (hneg "2fa_timeout" (by decide)),
      if_pos hst, ite_self, ite_self, ite_self]
  · intro c r reason h
    unfold known_code_result at h
    split_ifs at h with h1 h2 h3 h4 h5 h6 h7
    all_goals
      injection h with h; subst h
      first
        | (subst h1; rfl) | (subst h2; rfl) | (subst h3; rfl) | (subst h4; rfl)
        | (subst h5; rfl) | (subst h6; rfl) | (subst h7; rfl)
  · intro codes reason hknown hsteps hretries
    have hcc : ∀ x : String, known_code_result x ≠ none → ¬(codes.contains x = true) := by
      intro x hx hcx
      exact absurd (hknown x (List.elem_iff.mp hcx)) hx
    have hsteps' : ¬(codes.contains "REACH_MAX_STEPS" = true) := by
      rw [hsteps]; exact fun hc => absurd hc (by decide)
    have hretries' : ¬(codes.contains "REACH_MAX_RETRIES" = true) := by
      rw [hretries]; exact fun hc => absurd hc (by decide)
    simp only [classify_failure]
    rw [if_neg hsteps', if_neg (hcc "magic_link" (by decide)),
      if_neg (hcc "position_closed" (by decide)),
      if_neg (hcc "registration_required" (by decide)),
      if_neg (hcc "file_upload_required" (by decide)),
      if_neg (hcc "captcha_blocked" (by decide)),
      if_neg (hcc "login_failed" (by decide)),
      if_neg (hcc "2fa_timeout" (by decide)),
      if_neg hretries', if_neg hsteps']
  · intro reason h1 h2
    simp [reason_fallback, h1, h2]

/-- Witness for C1 at concrete inputs. -/
theorem monitor_error_code_precedence_witness :
    classify_failure ["REACH_MAX_STEPS", "captcha_blocked"] "" = .manual_review ∧
    classify_failure ["position_closed"] "" = .failed ∧
    classify_failure ["unexpected_code"] "x" = reason_fallback "x" ∧
    reason_fallback "nothing relevant" = .failed :=
  ⟨monitor_error_code_precedence.1 _ _ (by decide),
   monitor_error_code_precedence.2.1 _ _ _ (by decide),
   monitor_error_code_precedence.2.2.1 _ _ (by decide) (by decide) (by decide),
   monitor_error_code_precedence.2.2.2 _ (by decide) (by decide)⟩

/-- A completed poll whose extraction reports nothing about submission. -/
def completed_poll_without_confirmation : TaskPoll :=
  { status := "completed"
  , extracted_information := { magic_link_sent := false, application_submitted := none }
  , errors := []
  , failure_reason := "" }

/-- C4 counterexample: a completed task whose extraction never confirmed the
submission (`application_submitted` absent) is still classified `sent`, so
"classified `sent` exactly when extraction confirms the submission occurred"
is false on the code. -/
theorem monitor_completed_sent_without_extraction_confirmation :
    classify_poll completed_poll_without_confirmation = some .sent ∧
    completed_poll_without_confirmation.status = "completed" ∧
    completed_poll_without_confirmation.extracted_information.application_submitted ≠
      some true := by
  decide

/-- C4 (amended): the magic-link extraction flag wins regardless of task
status; a completed task is `manual_review` exactly when extraction says the
submission did not occur, and `sent` exactly when extraction does not say so
(including when extraction is silent). -/
theorem monitor_result_priority (d : TaskPoll) :
    (d.extracted_information.magic_link_sent = true →
      classify_poll d = some .magic_link) ∧
    (d.extracted_information.magic_link_sent = false → d.status = "completed" →
      ((classify_poll d = some .manual_review ↔
          d.extracted_information.application_submitted = some false) ∧
       (classify_poll d = some .sent ↔
          d.extracted_information.application_submitted ≠ some false))) := by
  constructor
  · intro hml
    simp [classify_poll, hml]
  · intro hml hst
    rcases hasb : d.extracted_information.application_submitted with _ | b
    · simp [classify_poll, hml, hst, hasb]
    · cases b <;> simp [classify_poll, hml, hst, hasb]

/-- A running poll that flagged a passwordless login page. -/
def running_poll_with_magic_flag : TaskPoll :=
  { status := "running"
  , extracted_information := { magic_link_sent := true, application_submitted := none }
  , errors := []
  , failure_reason := "" }

/-- A completed poll whose extraction says the submission did not occur. -/
def completed_poll_not_submitted : TaskPoll :=
  { status := "completed"
  , extracted_information := { magic_link_sent := false, application_submitted := some false }
  , errors := []
  , failure_reason := "" }

/-- Witness for the amended C4 theorem at concrete inputs. -/
theorem monitor_result_priority_witness :
    classify_poll running_poll_with_magic_flag = some .magic_link ∧
    classify_poll completed_poll_not_submitted = some .manual_review :=
  ⟨(monitor_result_priority running_poll_with_magic_flag).1 rfl,
   ((monitor_result_priority completed_poll_not_submitted).2 rfl rfl).1.mpr rfl⟩

/-! ## Site credentials and the magic-link guard (`auto_apply.py:507-541`) -/

/-- One row of the `site_credentials` table, with the columns touched by
`mark_site_as_magic_link` and `save_site_credentials`.  `registration_data`
is the JSON payload, kept as a key-value list. -/
structure SiteCredRow where
  site_domain : String
  email : String
  password : String
  status : String
  registration_data : List (String × String)
deriving DecidableEq, Repr

/-- The `registration_data` payload written by `mark_site_as_magic_link`
(`auto_apply.py:527` and `537`). -/
def magic_link_registration_data : List (String × String) :=
  [("auth_type", "magic_link"), ("note", "Uses magic link - manual login required")]

/-- Function `mark_site_as_magic_link` (`auto_apply.py:507-541`): select the first row
with this domain; if it is `active`, skip; otherwise update every row of that
domain to `inactive` magic-link; if no row exists, insert a placeholder. -/
def mark_site_as_magic_link (table : List SiteCredRow) (domain : String) : List SiteCredRow :=
  match (table.filter (fun r => r.site_domain == domain)).head? with
  | some row =>
    if row.status = "active" then table
    else table.map (fun r =>
      if r.site_domain == domain then
        { r with status := "inactive", registration_data := magic_link_registration_data }
      else r)
  | none =>
    table ++ [{ site_domain := domain, email := "magic_link@placeholder", password := "",
                status := "inactive", registration_data := magic_link_registration_data }]

/-- C2: when an `active` credential row exists for the domain (domains being
the unique key of the table, per the data model), `mark_site_as_magic_link` is a
no-op: the whole table, in particular the `status` of that row and its
`registration_data`, is left unchanged. -/
theorem mark_site_magic_link_active_noop (table : List SiteCredRow) (domain : String)
    (row : SiteCredRow) (hmem : row ∈ table) (hdom : row.site_domain = domain)
    (hact : row.status = "active")
    (huniq : ∀ r1 ∈ table, ∀ r2 ∈ table, r1.site_domain = r2.site_domain → r1 = r2) :
    mark_site_as_magic_link table domain = table := by
  unfold mark_site_as_magic_link
  cases hl : table.filter (fun r => r.site_domain == domain) with
  | nil =>
    exfalso
    have hrf : row ∈ table.filter (fun r => r.site_domain == domain) :=
      List.mem_filter.mpr ⟨hmem, by rw [hdom]; exact beq_self_eq_true domain⟩
    rw [hl] at hrf
    cases hrf
  | cons r0 tail =>
    have hr0 : r0 ∈ table.filter (fun r => r.site_domain == domain) := by
      rw [hl]; exact List.mem_cons_self r0 tail
    have hr0t : r0 ∈ table := (List.mem_filter.mp hr0).1
    have hr0d : r0.site_domain = domain := by
      have := (List.mem_filter.mp hr0).2
      exact eq_of_beq this
    have hre : r0 = row := huniq r0 hr0t row hmem (by rw [hr0d, hdom])
    have hr0act : r0.status = "active" := by rw [hre]; exact hact
    simp only [List.head?_cons]
    rw [if_pos hr0act]

/-- A concrete `active` credential row. -/
def demo_active_cred : SiteCredRow :=
  { site_domain := "acme.no", email := "user@mail.no", password := "pw"
  , status := "active", registration_data := [] }

/-- Witness for C2 on a one-row table. -/
theorem mark_site_magic_link_active_noop_witness :
    mark_site_as_magic_link [demo_active_cred] "acme.no" = [demo_active_cred] :=
  mark_site_magic_link_active_noop [demo_active_cred] "acme.no" demo_active_cred
    (by decide) (by decide) (by decide) (by decide)

/-! ## Confirmation waits (`auto_apply.py:2589-2760`) -/

/-- Constant `CONFIRMATION_TIMEOUT_SECONDS` (`auto_apply.py:2495`). -/
def CONFIRMATION_TIMEOUT_SECONDS : Int := 300

/-- The absolute expiry persisted by `create_confirmation_request`
(`auto_apply.py:2606`): creation time plus the timeout, in seconds. -/
def confirmation_expires_at (created_at timeout_seconds : Int) : Int :=
  created_at + timeout_seconds

/-- One iteration of the `wait_for_confirmation` polling loop
(`auto_apply.py:2731-2754`) on the row it just re-read: `none` means the loop
sleeps and polls again. -/
def wait_for_confirmation_step (status : String) (expires_at now : Int) : Option String :=
  if status = "confirmed" then some "confirmed"
  else if status = "cancelled" then some "cancelled"
  else if now > expires_at then some "timeout"
  else none

/-- C3 counterexample: with `created_at = 0` and the default 300-second
timeout, a still-pending wait polled at exactly `now = 300 = T + S` is NOT
classified `timeout` (the source compares `now > expires`, strictly); the
claim says it is. -/
theorem confirmation_no_timeout_at_exact_expiry :
    wait_for_confirmation_step "pending"
        (confirmation_expires_at 0 CONFIRMATION_TIMEOUT_SECONDS) 300 ≠ some "timeout" ∧
    wait_for_confirmation_step "pending"
        (confirmation_expires_at 0 CONFIRMATION_TIMEOUT_SECONDS) 300 = none := by
  decide

/-- C3 (amended): a still-pending wait with expiry `T + S` classifies as
`timeout` iff `now` is strictly past `T + S`; at `now = T + S` and at
`now = T + S - 1` it keeps waiting. -/
theorem confirmation_timeout_iff_strictly_past_expiry :
    (∀ T S now : Int,
      wait_for_confirmation_step "pending" (confirmation_expires_at T S) now =
          some "timeout" ↔ T + S < now) ∧
    (∀ T S : Int,
      wait_for_confirmation_step "pending" (confirmation_expires_at T S) (T + S) = none) ∧
    (∀ T S : Int,
      wait_for_confirmation_step "pending" (confirmation_expires_at T S) (T + S - 1) = none) := by
  refine ⟨?_, ?_, ?_⟩
  · intro T S now
    unfold wait_for_confirmation_step confirmation_expires_at
    rw [if_neg (by decide : ¬("pending" : String) = "confirmed"),
      if_neg (by decide : ¬("pending" : String) = "cancelled")]
    split_ifs with hgt
    · simpa using hgt
    · simpa using hgt
  · intro T S
    unfold wait_for_confirmation_step confirmation_expires_at
    rw [if_neg (by decide : ¬("pending" : String) = "confirmed"),
      if_neg (by decide : ¬("pending" : String) = "cancelled"),
      if_neg (by omega : ¬(T + S > T + S))]
  · intro T S
    unfold wait_for_confirmation_step confirmation_expires_at
    rw [if_neg (by decide : ¬("pending" : String) = "confirmed"),
      if_neg (by decide : ¬("pending" : String) = "cancelled"),
      if_neg (by omega : ¬(T + S - 1 > T + S))]

/-! ## The stuck-application reaper (`auto_apply.py:61-63, 166-194`) -/

/-- One row of the `applications` table as the reaper sees it:
`failure_reason` models the diagnostic written into `skyvern_metadata`. -/
structure ApplicationRow where
  id : String
  status : String
  updated_at : Int
  failure_reason : Option String
deriving DecidableEq, Repr

/-- Constant `STUCK_TIMEOUT_MINUTES` (`auto_apply.py:62`). -/
def STUCK_TIMEOUT_MINUTES : Int := 30

/-- The cutoff computed at `auto_apply.py:169`: applications with
`updated_at` strictly below it are selected. -/
def stuck_cutoff (now : Int) : Int := now - STUCK_TIMEOUT_MINUTES * 60

/-- The update applied to each selected application
(`auto_apply.py:183-190`). -/
def fail_stuck (a : ApplicationRow) : ApplicationRow :=
  { a with status := "failed", failure_reason := some "stuck_timeout" }

/-- The net effect of the reaper on one row: failed if selected by the
`status = sending` and `updated_at < cutoff` filters, untouched otherwise. -/
def cleanup_row (now : Int) (a : ApplicationRow) : ApplicationRow :=
  if a.status = "sending" ∧ a.updated_at < stuck_cutoff now then fail_stuck a else a

/-- Function `cleanup_stuck_applications` (`auto_apply.py:166-194`) over the whole
table (row ids being unique, the per-id updates act row-wise). -/
def cleanup_stuck_applications (now : Int) (table : List ApplicationRow) :
    List ApplicationRow :=
  table.map (cleanup_row now)

/-- C6: a `sending` application is forced to `failed` by a reaper run at time
`now` iff its last update lies strictly more than the 30-minute threshold
before `now`; the diagnostic reason is recorded; within the threshold the row
is untouched; and the reaper applies this row-wise to the whole table. -/
theorem reaper_fails_exactly_stale (now : Int) (a : ApplicationRow)
    (hs : a.status = "sending") :
    ((cleanup_row now a).status = "failed" ↔
      STUCK_TIMEOUT_MINUTES * 60 < now - a.updated_at) ∧
    ((cleanup_row now a).status = "failed" →
      (cleanup_row now a).failure_reason = some "stuck_timeout") ∧
    (now - a.updated_at ≤ STUCK_TIMEOUT_MINUTES * 60 → cleanup_row now a = a) ∧
    (∀ table : List ApplicationRow, a ∈ table →
      cleanup_row now a ∈ cleanup_stuck_applications now table) := by
  have hcut : ∀ h : a.updated_at < stuck_cutoff now,
      STUCK_TIMEOUT_MINUTES * 60 < now - a.updated_at := by
    intro h
    unfold stuck_cutoff STUCK_TIMEOUT_MINUTES at h
    unfold STUCK_TIMEOUT_MINUTES
    omega
  refine ⟨?_, ?_, ?_, ?_⟩
  · unfold cleanup_row
    split_ifs with h
    · simpa [fail_stuck] using hcut h.2
    · constructor
      · intro hf
        exact absurd (hs ▸ hf) (by decide)
      · intro hlt
        refine absurd ⟨hs, ?_⟩ h
        unfold STUCK_TIMEOUT_MINUTES at hlt
        unfold stuck_cutoff STUCK_TIMEOUT_MINUTES
        omega
  · unfold cleanup_row
    split_ifs with h
    · intro _; rfl
    · intro hf
      exact absurd (hs ▸ hf) (by decide)
  · intro hle
    unfold cleanup_row
    rw [if_neg]
    rintro ⟨-, hlt⟩
    have := hcut hlt
    omega
  · intro table ht
    exact List.mem_map_of_mem (cleanup_row now) ht

/-- A `sending` application last updated at time 0. -/
def demo_sending_app : ApplicationRow :=
  { id := "app-1", status := "sending", updated_at := 0, failure_reason := none }

/-- Witness for C6: at `now = 1801` (one second past the threshold) the row is
failed; at `now = 1800` (exactly the threshold) it is untouched. -/
theorem reaper_fails_exactly_stale_witness :
    (cleanup_row 1801 demo_sending_app).status = "failed" ∧
    cleanup_row 1800 demo_sending_app = demo_sending_app :=
  ⟨(reaper_fails_exactly_stale 1801 demo_sending_app rfl).1.mpr (by decide),
   (reaper_fails_exactly_stale 1800 demo_sending_app rfl).2.2.1 (by decide)⟩

/-! ## Reaction to the confirmation outcome (`auto_apply.py:3671-3743`) -/

/-- What `process_application` does next after `wait_for_confirmation`
returns: revert the Application and stop, or go on to submit. -/
inductive AttemptStep where
  | abort (new_status : String)
  | proceedToSubmission
deriving DecidableEq, Repr

/-- The standard-flow branch on the confirmation result
(`auto_apply.py:3728-3741`): `cancelled` and `timeout` set the Application to
`draft` and return before any Skyvern task is triggered; anything else means
the user confirmed and submission proceeds. -/
def handle_confirmation_standard (confirmation_result : String) : AttemptStep :=
  if confirmation_result = "cancelled" then .abort "draft"
  else if confirmation_result = "timeout" then .abort "draft"
  else .proceedToSubmission

/-- The identical hybrid-flow branch (`auto_apply.py:3673-3685`). -/
def handle_confirmation_hybrid (confirmation_result : String) : AttemptStep :=
  if confirmation_result = "cancelled" then .abort "draft"
  else if confirmation_result = "timeout" then .abort "draft"
  else .proceedToSubmission

/-- C7: whenever the confirmation wait ends `cancelled` or `timeout`, both
flows set the Application to `draft` — a pre-submission state, not `failed` —
and do not proceed to start an automation task in that attempt. -/
theorem confirmation_cancel_or_timeout_reverts_to_draft (r : String)
    (h : r = "cancelled" ∨ r = "timeout") :
    handle_confirmation_standard r = .abort "draft" ∧
    handle_confirmation_hybrid r = .abort "draft" ∧
    handle_confirmation_standard r ≠ .abort "failed" ∧
    handle_confirmation_standard r ≠ .proceedToSubmission ∧
    handle_confirmation_hybrid r ≠ .proceedToSubmission := by
  rcases h with h | h <;> subst h <;> refine ⟨rfl, rfl, ?_, ?_, ?_⟩ <;> decide

/-- Witness for C7 at the concrete result `cancelled`. -/
theorem confirmation_cancel_or_timeout_reverts_to_draft_witness :
    handle_confirmation_standard "cancelled" = .abort "draft" ∧
    handle_confirmation_hybrid "cancelled" = .abort "draft" :=
  ⟨(confirmation_cancel_or_timeout_reverts_to_draft "cancelled" (Or.inl rfl)).1,
   (confirmation_cancel_or_timeout_reverts_to_draft "cancelled" (Or.inl rfl)).2.1⟩

/-! ## Submission retry (`auto_apply.py:65-66, 117-163`) -/

/-- Constant `RETRY_ATTEMPTS` (`auto_apply.py:65`). -/
def RETRY_ATTEMPTS : Nat := 3

/-- Constant `RETRY_BACKOFF` (`auto_apply.py:66`), seconds between retries. -/
def RETRY_BACKOFF : List Nat := [5, 10]

/-- The outcome of one POST to the Skyvern tasks endpoint, as distinguished by
`submit_skyvern_task_with_retry`: HTTP 200 with a task id, a non-200 reply,
`httpx.ConnectError`, or any other exception. -/
inductive SkyvernAttemptOutcome where
  | success (task_id : String)
  | apiError (body : String)
  | connectError (msg : String)
  | requestFailed (msg : String)
deriving DecidableEq, Repr

/-- What one run of `submit_skyvern_task_with_retry` did: the returned task id
(or `None`), the backoff sleeps performed in order, and how many POST attempts
were made. -/
structure SubmitTrace where
  result : Option String
  waits : List Nat
  attempts : Nat
deriving DecidableEq, Repr

/-- The `for attempt in range(RETRY_ATTEMPTS)` loop of
`submit_skyvern_task_with_retry` (`auto_apply.py:126-163`) over the list of
remaining attempt indices, with the per-attempt outcome supplied by an
oracle.  A success returns the task id at once; a failure sleeps
`RETRY_BACKOFF[min(attempt, len-1)]` unless this was the last attempt. -/
def run_submit_attempts (outcome : Nat → SkyvernAttemptOutcome) :
    List Nat → SubmitTrace
  | [] => { result := none, waits := [], attempts := 0 }
  | attempt :: rest =>
    match outcome attempt with
    | .success task_id => { result := some task_id, waits := [], attempts := 1 }
    | _ =>
      if attempt < RETRY_ATTEMPTS - 1 then
        let t := run_submit_attempts outcome rest
        { result := t.result
        , waits := RETRY_BACKOFF.getD (min attempt (RETRY_BACKOFF.length - 1)) 0 :: t.waits
        , attempts := t.attempts + 1 }
      else { result := none, waits := [], attempts := 1 }

/-- Function `submit_skyvern_task_with_retry` (`auto_apply.py:117-163`), abstracted
over the per-attempt outcome. -/
def submit_skyvern_task_with_retry (outcome : Nat → SkyvernAttemptOutcome) : SubmitTrace :=
  run_submit_attempts outcome (List.range RETRY_ATTEMPTS)

lemma run_submit_attempts_success_cons (outcome : Nat → SkyvernAttemptOutcome)
    (attempt : Nat) (rest : List Nat) (t : String) (h : outcome attempt = .success t) :
    run_submit_attempts outcome (attempt :: rest) =
      { result := some t, waits := [], attempts := 1 } := by
  simp [run_submit_attempts, h]

lemma run_submit_attempts_fail_cons (outcome : Nat → SkyvernAttemptOutcome)
    (attempt : Nat) (rest : List Nat) (h : ∀ t, outcome attempt ≠ .success t) :
    run_submit_attempts outcome (attempt :: rest) =
      if attempt < RETRY_ATTEMPTS - 1 then
        { result := (run_submit_attempts outcome rest).result
        , waits := RETRY_BACKOFF.getD (min attempt (RETRY_BACKOFF.length - 1)) 0 ::
            (run_submit_attempts outcome rest).waits
        , attempts := (run_submit_attempts outcome rest).attempts + 1 }
      else { result := none, waits := [], attempts := 1 } := by
  cases ho : outcome attempt with
  | success t => exact absurd ho (h t)
  | apiError b => simp [run_submit_attempts, ho]
  | connectError b => simp [run_submit_attempts, ho]
  | requestFailed b => simp [run_submit_attempts, ho]

/-- C8: the submission loop makes at most 3 attempts; its sleeps are exactly
the declared backoff sequence truncated to one fewer than the attempts made
(so no sleep follows the final attempt); and when every attempt fails it
returns `None` after 3 attempts and the full 5 s, 10 s backoff sequence. -/
theorem submit_retry_bound (outcome : Nat → SkyvernAttemptOutcome) :
    (submit_skyvern_task_with_retry outcome).attempts ≤ RETRY_ATTEMPTS ∧
    (submit_skyvern_task_with_retry outcome).waits =
      RETRY_BACKOFF.take ((submit_skyvern_task_with_retry outcome).attempts - 1) ∧
    ((∀ i, i < RETRY_ATTEMPTS → ∀ task_id, outcome i ≠ .success task_id) →
      (submit_skyvern_task_with_retry outcome).result = none ∧
      (submit_skyvern_task_with_retry outcome).attempts = RETRY_ATTEMPTS ∧
      (submit_skyvern_task_with_retry outcome).waits = RETRY_BACKOFF) := by
  have hrange : List.range RETRY_ATTEMPTS = [0, 1, 2] := by decide
  unfold submit_skyvern_task_with_retry
  rw [hrange]
  by_cases h0 : ∀ t, outcome 0 ≠ .success t
  · by_cases h1 : ∀ t, outcome 1 ≠ .success t
    · by_cases h2 : ∀ t, outcome 2 ≠ .success t
      · rw [run_submit_attempts_fail_cons outcome 0 _ h0, if_pos (by decide),
          run_submit_attempts_fail_cons outcome 1 _ h1, if_pos (by decide),
          run_submit_attempts_fail_cons outcome 2 _ h2, if_neg (by decide)]
        exact ⟨by decide, by decide, fun _ => ⟨rfl, by decide, by decide⟩⟩
      · push_neg at h2
        obtain ⟨t2, ht2⟩ := h2
        rw [run_submit_attempts_fail_cons outcome 0 _ h0, if_pos (by decide),
          run_submit_attempts_fail_cons outcome 1 _ h1, if_pos (by decide),
          run_submit_attempts_success_cons outcome 2 _ t2 ht2]
        refine ⟨by simp [RETRY_ATTEMPTS], by simp [RETRY_BACKOFF], fun hall => ?_⟩
        exact absurd ht2 (hall 2 (by decide) t2)
    · push_neg at h1
      obtain ⟨t1, ht1⟩ := h1
      rw [run_submit_attempts_fail_cons outcome 0 _ h0, if_pos (by decide),
        run_submit_attempts_success_cons outcome 1 _ t1 ht1]
      refine ⟨by simp [RETRY_ATTEMPTS], by simp [RETRY_BACKOFF], fun hall => ?_⟩
      exact absurd ht1 (hall 1 (by decide) t1)
  · push_neg at h0
    obtain ⟨t0, ht0⟩ := h0
    rw [run_submit_attempts_success_cons outcome 0 _ t0 ht0]
    refine ⟨by simp [RETRY_ATTEMPTS], by simp [RETRY_BACKOFF], fun hall => ?_⟩
    exact absurd ht0 (hall 0 (by decide) t0)

/-- An oracle on which every POST raises a connection error. -/
def always_connect_error : Nat → SkyvernAttemptOutcome :=
  fun _ => .connectError "connection refused"

/-- Witness for C8: when Skyvern is unreachable on all three attempts, the
loop returns `None` after exactly 3 attempts and sleeps 5 s then 10 s. -/
theorem submit_retry_bound_witness :
    (submit_skyvern_task_with_retry always_connect_error).result = none ∧
    (submit_skyvern_task_with_retry always_connect_error).attempts = RETRY_ATTEMPTS ∧
    (submit_skyvern_task_with_retry always_connect_error).waits = RETRY_BACKOFF :=
  (submit_retry_bound always_connect_error).2.2
    (fun _ _ _ h => SkyvernAttemptOutcome.noConfusion h)

/-! ## Password generation (`register_site.py:87-119`, `auto_apply.py:560-579`) -/

/-- Python `string.ascii_lowercase`. -/
def ascii_lowercase : List Char := "abcdefghijklmnopqrstuvwxyz".toList

/-- Python `string.ascii_uppercase`. -/
def ascii_uppercase : List Char := "ABCDEFGHIJKLMNOPQRSTUVWXYZ".toList

/-- Python `string.digits`. -/
def string_digits : List Char := "0123456789".toList

/-- The special characters of `register_site.py:101`, the same set appended in
`auto_apply.py:564`. -/
def special_chars : List Char := "!@#$%^&*".toList

/-- Python `string.ascii_letters`. -/
def ascii_letters : List Char := ascii_lowercase ++ ascii_uppercase

/-- Alphabet `password_chars` of `auto_apply.py:564`:
`string.ascii_letters + string.digits + "!@#$%^&*"`. -/
def password_chars : List Char := ascii_letters ++ string_digits ++ special_chars

/-- The inline password generation of `trigger_registration`
(`auto_apply.py:565`): sixteen independent `secrets.choice(password_chars)`
draws, with the randomness supplied as a draw oracle. -/
def trigger_registration_password (choice : Nat → Char) : String :=
  String.mk ((List.range 16).map choice)

/-- Function `generate_secure_password` (`register_site.py:87-119`): one forced draw
from each character class, `length - 4` further draws from the union of all
classes, then a `secrets.SystemRandom().shuffle`, modelled as an arbitrary
permutation of the assembled list. -/
def generate_secure_password (length : Nat) (c1 c2 c3 c4 : Char) (rest : List Char)
    (shuffle : List Char → List Char) : String :=
  String.mk (shuffle ([c1, c2, c3, c4] ++ rest))

/-- The generator of `register_site.py` does meet its documented requirements:
for any class-respecting draws and any permutation, the password has the
requested length and one character of each class. -/
theorem generate_secure_password_meets_requirements (length : Nat) (c1 c2 c3 c4 : Char)
    (rest : List Char) (shuffle : List Char → List Char)
    (h1 : c1 ∈ ascii_lowercase) (h2 : c2 ∈ ascii_uppercase) (h3 : c3 ∈ string_digits)
    (h4 : c4 ∈ special_chars) (hlen : rest.length = length - 4) (hge : 4 ≤ length)
    (hperm : ∀ l, List.Perm (shuffle l) l) :
    (generate_secure_password length c1 c2 c3 c4 rest shuffle).length = length ∧
    (∃ c ∈ (generate_secure_password length c1 c2 c3 c4 rest shuffle).toList,
      c ∈ ascii_lowercase) ∧
    (∃ c ∈ (generate_secure_password length c1 c2 c3 c4 rest shuffle).toList,
      c ∈ ascii_uppercase) ∧
    (∃ c ∈ (generate_secure_password length c1 c2 c3 c4 rest shuffle).toList,
      c ∈ string_digits) ∧
    (∃ c ∈ (generate_secure_password length c1 c2 c3 c4 rest shuffle).toList,
      c ∈ special_chars) := by
  have hp := hperm ([c1, c2, c3, c4] ++ rest)
  have htl : (generate_secure_password length c1 c2 c3 c4 rest shuffle).toList =
      shuffle ([c1, c2, c3, c4] ++ rest) := rfl
  refine ⟨?_, ⟨c1, ?_, h1⟩, ⟨c2, ?_, h2⟩, ⟨c3, ?_, h3⟩, ⟨c4, ?_, h4⟩⟩
  · show (shuffle ([c1, c2, c3, c4] ++ rest)).length = length
    rw [hp.length_eq]
    simp [hlen]
    omega
  · rw [htl]; exact hp.mem_iff.mpr (by simp)
  · rw [htl]; exact hp.mem_iff.mpr (by simp)
  · rw [htl]; exact hp.mem_iff.mpr (by simp)
  · rw [htl]; exact hp.mem_iff.mpr (by simp)

/-- C5: the password built inline by `auto_apply.trigger_registration`
(`auto_apply.py:565`) offers no per-class guarantee: the draw that picks `a`
sixteen times is a valid draw from `password_chars`, yet the resulting
16-character password contains no uppercase letter, no digit and no symbol —
contradicting the "at least one lowercase/uppercase/digit/symbol" of the spec
(which `register_site.generate_secure_password` does enforce). -/
theorem trigger_registration_password_no_class_guarantee :
    ('a' ∈ password_chars) ∧
    trigger_registration_password (fun _ => 'a') = "aaaaaaaaaaaaaaaa" ∧
    (trigger_registration_password (fun _ => 'a')).length = 16 ∧
    (∀ c ∈ (trigger_registration_password (fun _ => 'a')).toList,
      c ∉ ascii_uppercase) ∧
    (∀ c ∈ (trigger_registration_password (fun _ => 'a')).toList,
      c ∉ string_digits) ∧
    (∀ c ∈ (trigger_registration_password (fun _ => 'a')).toList,
      c ∉ special_chars) := by
  decide

/-! ## Registration success and the re-queue path
(`register_site.py:547-577, 1603-1745`) -/

/-- The application re-queue performed on registration success
(`register_site.py:1642-1644`, repeated at `1735-1737`): set status
`sending` on the linked application id, guarded by
`.eq("status", "manual_review")`. -/
def registration_requeue (apps : List ApplicationRow) (app_id : String) :
    List ApplicationRow :=
  apps.map (fun a =>
    if a.id = app_id ∧ a.status = "manual_review" then { a with status := "sending" }
    else a)

/-- Function `save_site_credentials` (`register_site.py:547-577`): the inserted
SiteCredential row always carries status `active`. -/
def save_site_credentials (domain email password : String)
    (registration_data : List (String × String)) : SiteCredRow :=
  { site_domain := domain, email := email, password := password
  , status := "active", registration_data := registration_data }

/-- The effects of the success block of `process_registration`
(`register_site.py:1622-1647`): the persisted credential, the optional id
returned by `add_credential_to_skyvern` (the credential store of the
automation engine itself), and the applications table after the re-queue. -/
structure RegistrationSuccessEffects where
  credential : SiteCredRow
  skyvern_credential_id : Option String
  applications : List ApplicationRow
deriving Repr

/-- The success block of `process_registration` (`register_site.py:1622-1647`):
register the credential with the engine (optional), persist the
SiteCredential via `save_site_credentials`, and re-queue the linked
application when one exists. -/
def process_registration_success (domain email password : String)
    (skyvern_cred_id : Option String) (application_id : Option String)
    (filled_fields : List (String × String)) (apps : List ApplicationRow) :
    RegistrationSuccessEffects :=
  { credential := save_site_credentials domain email password filled_fields
  , skyvern_credential_id := skyvern_cred_id
  , applications :=
      match application_id with
      | some aid => registration_requeue apps aid
      | none => apps }

/-- One site in the repository that writes `applications.status`:
its location, the status it writes, and the status filter that site applies —
either an `.eq("status", g)` clause on the update itself or, for the FINN
worker, the `status=eq.sending` filter of the query that selected the row. -/
structure StatusWrite where
  location : String
  new_status : String
  status_guard : Option String
deriving DecidableEq, Repr

/-- Every write of `applications.status` in the repository
(`auto_apply.py`, `register_site.py`, `finn_apply_worker.py`; the other
modules touch only the `jobs` table).  The two writes at
`auto_apply.py:3820` and `4066` store the `monitor_task_status` result after
`cancelled` and `magic_link` returned early, hence one entry per remaining
result value. -/
def application_status_writes : List StatusWrite := [
  { location := "auto_apply.cleanup_stuck_applications:183", new_status := "failed",
    status_guard := some "sending" },
  { location := "auto_apply.trigger_registration_flow:704", new_status := "manual_review",
    status_guard := none },
  { location := "auto_apply.trigger_registration_flow:716", new_status := "failed",
    status_guard := none },
  { location := "auto_apply.process_application:3459", new_status := "manual_review",
    status_guard := some "sending" },
  { location := "auto_apply.process_application:3475", new_status := "failed",
    status_guard := none },
  { location := "auto_apply.process_application:3489", new_status := "failed",
    status_guard := none },
  { location := "auto_apply.process_application:3563", new_status := "manual_review",
    status_guard := none },
  { location := "auto_apply.process_application:3675", new_status := "draft",
    status_guard := none },
  { location := "auto_apply.process_application:3680", new_status := "draft",
    status_guard := none },
  { location := "auto_apply.process_application:3730", new_status := "draft",
    status_guard := none },
  { location := "auto_apply.process_application:3736", new_status := "draft",
    status_guard := none },
  { location := "auto_apply.process_application:3789", new_status := "manual_review",
    status_guard := none },
  { location := "auto_apply.process_application:3817", new_status := "manual_review",
    status_guard := none },
  { location := "auto_apply.process_application:3820#sent", new_status := "sent",
    status_guard := none },
  { location := "auto_apply.process_application:3820#failed", new_status := "failed",
    status_guard := none },
  { location := "auto_apply.process_application:3820#manual_review",
    new_status := "manual_review", status_guard := none },
  { location := "auto_apply.process_application:3831", new_status := "failed",
    status_guard := none },
  { location := "auto_apply.process_application:3860", new_status := "manual_review",
    status_guard := none },
  { location := "auto_apply.process_application:3964", new_status := "manual_review",
    status_guard := none },
  { location := "auto_apply.process_application:3996", new_status := "failed",
    status_guard := none },
  { location := "auto_apply.process_application:4009", new_status := "failed",
    status_guard := none },
  { location := "auto_apply.process_application:4033", new_status := "manual_review",
    status_guard := none },
  { location := "auto_apply.process_application:4063", new_status := "manual_review",
    status_guard := none },
  { location := "auto_apply.process_application:4066#sent", new_status := "sent",
    status_guard := none },
  { location := "auto_apply.process_application:4066#failed", new_status := "failed",
    status_guard := none },
  { location := "auto_apply.process_application:4066#manual_review",
    new_status := "manual_review", status_guard := none },
  { location := "auto_apply.process_application:4081", new_status := "failed",
    status_guard := none },
  { location := "auto_apply.process_user_applications:4168", new_status := "failed",
    status_guard := none },
  { location := "auto_apply.process_user_applications:4189", new_status := "failed",
    status_guard := none },
  { location := "auto_apply.process_user_applications:4206", new_status := "failed",
    status_guard := none },
  { location := "register_site.process_registration:1642", new_status := "sending",
    status_guard := some "manual_review" },
  { location := "register_site.process_registration:1735", new_status := "sending",
    status_guard := some "manual_review" },
  { location := "finn_apply_worker.process_finn_application:353", new_status := "sending",
    status_guard := some "sending" },
  { location := "finn_apply_worker.process_finn_application:374", new_status := "failed",
    status_guard := none }]

/-- C9: on registration success the persisted SiteCredential is `active` for
the site domain; the linked application is moved from `manual_review` to
`sending` and applications not in `manual_review` (or with another id) are
untouched; and across the repository, every write of status `sending` is
either guarded on `manual_review` — and is one of the two registration-manager
re-queue sites — or rewrites a row that was already `sending`. -/
theorem registration_success_persists_and_requeues :
    (∀ (domain email password : String) (scid : Option String) (aid : Option String)
        (ff : List (String × String)) (apps : List ApplicationRow),
      (process_registration_success domain email password scid aid ff apps).credential.status
          = "active" ∧
      (process_registration_success domain email password scid aid ff apps).credential.site_domain
          = domain) ∧
    (∀ (domain email password : String) (scid : Option String) (aid : String)
        (ff : List (String × String)) (apps : List ApplicationRow) (a : ApplicationRow),
      a ∈ apps → a.id = aid → a.status = "manual_review" →
      { a with status := "sending" } ∈
        (process_registration_success domain email password scid (some aid) ff
          apps).applications) ∧
    (∀ (domain email password : String) (scid : Option String) (aid : String)
        (ff : List (String × String)) (apps : List ApplicationRow) (a : ApplicationRow),
      a ∈ apps → ¬(a.id = aid ∧ a.status = "manual_review") →
      a ∈ (process_registration_success domain email password scid (some aid) ff
          apps).applications) ∧
    (∀ w ∈ application_status_writes, w.new_status = "sending" →
      w.status_guard = some "manual_review" ∨ w.status_guard = some "sending") ∧
    (∀ w ∈ application_status_writes, w.new_status = "sending" →
      w.status_guard = some "manual_review" →
      w.location = "register_site.process_registration:1642" ∨
      w.location = "register_site.process_registration:1735") := by
  refine ⟨?_, ?_, ?_, ?_, ?_⟩
  · intro domain email password scid aid ff apps
    exact ⟨rfl, rfl⟩
  · intro domain email password scid aid ff apps a ha hid hst
    refine List.mem_map.mpr ⟨a, ha, ?_⟩
    show (if a.id = aid ∧ a.status = "manual_review"
        then ({ a with status := "sending" } : ApplicationRow) else a) =
      { a with status := "sending" }
    rw [if_pos ⟨hid, hst⟩]
  · intro domain email password scid aid ff apps a ha hng
    refine List.mem_map.mpr ⟨a, ha, ?_⟩
    show (if a.id = aid ∧ a.status = "manual_review"
        then ({ a with status := "sending" } : ApplicationRow) else a) = a
    rw [if_neg hng]
  · decide
  · decide

/-- An application parked in `manual_review` while its registration runs. -/
def demo_blocked_app : ApplicationRow :=
  { id := "app-9", status := "manual_review", updated_at := 0, failure_reason := none }

/-- Witness for C9: a successful registration for `acme.no` saves an `active`
credential and re-queues the blocked application to `sending`. -/
theorem registration_success_persists_and_requeues_witness :
    { demo_blocked_app with status := "sending" } ∈
      (process_registration_success "acme.no" "user@mail.no" "pw" none (some "app-9") []
        [demo_blocked_app]).applications ∧
    (process_registration_success "acme.no" "user@mail.no" "pw" none (some "app-9") []
      [demo_blocked_app]).credential.status = "active" :=
  ⟨registration_success_persists_and_requeues.2.1 "acme.no" "user@mail.no" "pw" none
      "app-9" [] [demo_blocked_app] demo_blocked_app (by decide) rfl rfl,
   (registration_success_persists_and_requeues.1 "acme.no" "user@mail.no" "pw" none
      (some "app-9") [] [demo_blocked_app]).1⟩

/-! ## FINN URL guard (`auto_apply.py:765-800, 2831-2933`) -/

/-- A greedy `\d+` / `\d{n,}` run: the maximal digit prefix (these URLs are
ASCII, where Python `\d` is `0-9`). -/
def digit_run (l : List Char) : List Char := l.takeWhile Char.isDigit

/-- The `(?:\?|$)` terminator of patterns 2-5 of `extract_finnkode`. -/
def ends_ok_q : List Char → Bool
  | [] => true
  | c :: _ => c == '?'

/-- The `(?:\.html|\?|$)` terminator of pattern 2. -/
def ends_ok_job (tail : List Char) : Bool :=
  ".html".toList.isPrefixOf tail || ends_ok_q tail

/-- Leftmost-match search: try the pattern at every position in turn, as
`re.search` does. -/
def scan (tryAt : List Char → Option (List Char)) : List Char → Option (List Char)
  | [] => tryAt []
  | c :: rest =>
    match tryAt (c :: rest) with
    | some ds => some ds
    | none => scan tryAt rest

/-- Patterns 0 and 1, `[?&]adId=(\d+)` / `[?&]finnkode=(\d+)`
(`auto_apply.py:771, 776`), tried at one position. -/
def try_query_param (key : List Char) (l : List Char) : Option (List Char) :=
  match l with
  | [] => none
  | c :: rest =>
    if (c = '?' ∨ c = '&') ∧ key.isPrefixOf rest then
      (let ds := digit_run (rest.drop key.length)
       if 1 ≤ ds.length then some ds else none)
    else none

/-- Pattern 2, `/job/(\d{8,})(?:\.html|\?|$)` (`auto_apply.py:781`), at one
position.  The greedy `\d{8,}` cannot usefully backtrack: a shorter run would
leave a digit where `.html`, `?` or end-of-string must follow. -/
def try_job_path (l : List Char) : Option (List Char) :=
  if "/job/".toList.isPrefixOf l then
    (let after := l.drop 5
     let ds := digit_run after
     if 8 ≤ ds.length ∧ ends_ok_job (after.drop ds.length) = true then some ds else none)
  else none

/-- Pattern 3, `/ad[/.](\d{8,})(?:\?|$)` (`auto_apply.py:786`), at one
position. -/
def try_ad_path (l : List Char) : Option (List Char) :=
  if "/ad".toList.isPrefixOf l then
    (match l.drop 3 with
     | [] => none
     | c :: rest =>
       if c = '/' ∨ c = '.' then
         (let ds := digit_run rest
          if 8 ≤ ds.length ∧ ends_ok_q (rest.drop ds.length) = true then some ds else none)
       else none)
  else none

/-- Pattern 4, `/(\d{8,})(?:\?|$)` (`auto_apply.py:791`), at one position. -/
def try_slash_digits (l : List Char) : Option (List Char) :=
  match l with
  | [] => none
  | c :: rest =>
    if c = '/' then
      (let ds := digit_run rest
       if 8 ≤ ds.length ∧ ends_ok_q (rest.drop ds.length) = true then some ds else none)
    else none

/-- Pattern 5, `/job/[^/]+/(\d{8,})(?:\?|$)` (`auto_apply.py:796`), at one
position: the greedy `[^/]+` must stop exactly at the next `/`. -/
def try_job_segment (l : List Char) : Option (List Char) :=
  if "/job/".toList.isPrefixOf l then
    (let after := l.drop 5
     let seg := after.takeWhile (fun c => !(c == '/'))
     if 1 ≤ seg.length then
       match after.drop seg.length with
       | [] => none
       | c2 :: rest2 =>
         if c2 = '/' then
           (let ds := digit_run rest2
            if 8 ≤ ds.length ∧ ends_ok_q (rest2.drop ds.length) = true then some ds
            else none)
         else none
     else none)
  else none

/-- Function `extract_finnkode` (`auto_apply.py:765-800`): `None` for an empty URL or
one not containing `finn.no`; otherwise the six `re.search` patterns are
tried in order. -/
def extract_finnkode (url : String) : Option String :=
  if url = "" ∨ strContains url "finn.no" = false then none
  else
    (let l := url.toList
     (scan (try_query_param "adId=".toList) l <|>
      scan (try_query_param "finnkode=".toList) l <|>
      scan try_job_path l <|>
      scan try_ad_path l <|>
      scan try_slash_digits l <|>
      scan try_job_segment l).map String.mk)

/-- The direct apply URL built at `auto_apply.py:2870`, and the identifier
used for 2FA. -/
structure FinnApplyRequest where
  url : String
  totp_identifier : String
deriving DecidableEq, Repr

/-- The task-submission decision of `trigger_finn_apply_task`
(`auto_apply.py:2831-2933`), condensed to whether a Skyvern task request is
built at all and which target it aims at: `None` when FINN credentials are
missing (`:2840-2842`) or no finnkode can be extracted (`:2859-2862`);
otherwise a task against the direct apply URL is submitted.  The rest of the
navigation payload (profile fields, cover letter) does not affect this
decision. -/
def trigger_finn_apply_task (finn_email finn_password job_page_url : String) :
    Option FinnApplyRequest :=
  if finn_email = "" ∨ finn_password = "" then none
  else
    match extract_finnkode job_page_url with
    | none => none
    | some finnkode =>
      some { url := "https://www.finn.no/job/apply?adId=" ++ finnkode
           , totp_identifier := finn_email }

/-- Sanity check: the extraction is executable and finds finnkodes on real
FINN URL shapes. -/
theorem extract_finnkode_examples :
    extract_finnkode "https://www.finn.no/job/apply?adId=123456789" = some "123456789" ∧
    extract_finnkode "https://www.finn.no/job/fulltime/ad.html?finnkode=987654321" =
      some "987654321" ∧
    extract_finnkode "https://www.finn.no/job/123456789" = some "123456789" := by
  decide

/-- C10: for an empty URL or one without the substring `finn.no`,
`extract_finnkode` returns `None`, and consequently `trigger_finn_apply_task`
submits nothing for such a URL, whatever the configured credentials. -/
theorem non_finn_url_never_submitted (url finn_email finn_password : String)
    (h : url = "" ∨ strContains url "finn.no" = false) :
    extract_finnkode url = none ∧
    trigger_finn_apply_task finn_email finn_password url = none := by
  have he : extract_finnkode url = none := by
    unfold extract_finnkode
    rw [if_pos h]
  refine ⟨he, ?_⟩
  unfold trigger_finn_apply_task
  split_ifs with hcred
  · rfl
  · rw [he]

/-- Witness for C10 at a non-FINN URL with credentials configured. -/
theorem non_finn_url_never_submitted_witness :
    extract_finnkode "https://example.com/job/12345678" = none ∧
    trigger_finn_apply_task "user@mail.no" "pw" "https://example.com/job/12345678" = none :=
  non_finn_url_never_submitted "https://example.com/job/12345678" "user@mail.no" "pw"
    (Or.inr (by decide))

end JobbotNO
